import Mathlib

/-
Verification of the terraform-provider-dbt_cloud reconciler logic.

The development shallowly embeds the CRUD handlers of the provider's
`job` resource (pkg/resources/job.go) and `connection` resource
(pkg/resources/connection.go) together with the composite-identifier
scheme used by scoped resources.  Go structs become Lean structures,
the hosting runtime's change reports (d.HasChange) become a Boolean
oracle over attribute names, the desired state (d.Get) becomes a
configuration record, and the remote fetch becomes an `Except` value.
Strings manipulated character-wise (the composite identifiers) are
modelled as lists of characters, mirroring Go's strings.Split.
-/

namespace DbtCloud

/-- Character-list model of a Go string, used for identifier strings that the
source manipulates with strings.Split and fmt.Sprintf. -/
abbrev GoStr := List Char

/-- The decimal digit character for a single digit value, as produced by
Go's fmt verb %d. -/
def digitChar (d : Nat) : Char := Char.ofNat (48 + d)

/-- Decimal rendering of a natural number: the embedding of formatting an
integer ID with fmt.Sprintf %d (connection.go line 175). -/
def natToDec (n : Nat) : GoStr :=
  if _h : n < 10 then [digitChar n]
  else natToDec (n / 10) ++ [digitChar (n % 10)]
termination_by n
decreasing_by exact Nat.div_lt_self (by omega) (by omega)

/-- Modelled from the spec: the value of the constant dbt_cloud.ID_DELIMITER
lives in the dbt_cloud client package, which is not among the provided source
files; spec section 8 shows the composite identifier "42:7" with delimiter
":". -/
def ID_DELIMITER : GoStr := [':']

/-- Encoding of the composite identifier, the embedding of
fmt.Sprintf with the project ID, the delimiter and the entity ID
(connection.go line 175, d.SetId). -/
def encodeCompositeId (parentId entityId : Nat) : GoStr :=
  natToDec parentId ++ ID_DELIMITER ++ natToDec entityId

/-- Embedding of Go's strings.Split with the ":" delimiter, as applied to
d.Id() in connection.go lines 187-188, 276-277 and 354-355. -/
def splitColon : GoStr → List GoStr
  | [] => [[]]
  | c :: rest =>
    if c = ':' then [] :: splitColon rest
    else
      match splitColon rest with
      | [] => [[c]]
      | p :: ps => (c :: p) :: ps

/-- Decimal digit test and value, embedding the per-character work of
integer parsing. -/
def decDigit? (c : Char) : Option Nat :=
  if 48 ≤ c.toNat && c.toNat ≤ 57 then some (c.toNat - 48) else none

/-- Accumulator loop of decimal integer parsing. -/
def parseDecAux (acc : Nat) : GoStr → Option Nat
  | [] => some acc
  | c :: rest =>
    match decDigit? c with
    | some d => parseDecAux (10 * acc + d) rest
    | none => none

/-- Parse of a non-negative decimal integer; the empty string and any
string with a non-digit character are rejected. -/
def parseDec : GoStr → Option Nat
  | [] => none
  | c :: rest => parseDecAux 0 (c :: rest)

/-- Outcome of decoding a composite identifier. `indexOutOfRange` is the
Go runtime panic raised by indexing element 1 of a one-element slice. -/
inductive CompositeDecode where
  | indexOutOfRange
  | malformed
  | ok (parentId entityId : Nat)
deriving DecidableEq

/-- Decoding of a composite identifier.  The split and the two indexing
operations are the embedding of connection.go lines 187-188.  Modelled from
the spec: the integer interpretation of the two halves happens inside the
REST client (spec section 4.1: decode fails with MalformedIdentifier when a
half is not a valid integer), whose source is not among the provided files. -/
def decodeCompositeId (s : GoStr) : CompositeDecode :=
  match splitColon s with
  | p :: e :: _ =>
    match parseDec p, parseDec e with
    | some pn, some en => .ok pn en
    | _, _ => .malformed
  | _ => .indexOutOfRange

/-- Trigger flags of a job, the fields of the dbt_cloud.JobTrigger struct that
job.go reads and writes (lines 523-534): the github_webhook,
git_provider_webhook and schedule flags. -/
structure JobTriggers where
  github_webhook : Bool
  git_provider_webhook : Bool
  schedule : Bool
deriving DecidableEq

/-- Time part of a job schedule (job.go lines 537-555): type is one of
"every_hour" and "at_exact_hours". -/
structure ScheduleTime where
  type_ : String
  interval : Int
  hours : Option (List Int)
deriving DecidableEq

/-- Date part of a job schedule (job.go lines 557-583): type is one of
"every_day", "days_of_week" and "custom_cron". -/
structure ScheduleDate where
  type_ : String
  days : Option (List Int)
  cron : Option String
deriving DecidableEq

/-- Job schedule, as read and written by job.go. -/
structure JobSchedule where
  time : ScheduleTime
  date : ScheduleDate
deriving DecidableEq

/-- Job settings (threads and target name), job.go lines 497-504. -/
structure JobSettings where
  threads : Int
  target_name : String
deriving DecidableEq

/-- Job execution settings, job.go lines 616-619. -/
structure JobExecution where
  timeout_seconds : Int
deriving DecidableEq

/-- Condition of a job-completion trigger, job.go lines 632-638. -/
structure JobCompletionTriggerCondition where
  job_id : Int
  project_id : Int
  statuses : List Int
deriving DecidableEq

/-- Job-completion trigger, job.go lines 632-640. -/
structure JobCompletionTrigger where
  condition : JobCompletionTriggerCondition
deriving DecidableEq

/-- The remote job entity: exactly the fields of the dbt_cloud.Job struct
that job.go reads or writes. -/
structure Job where
  id : Option Int
  project_id : Int
  environment_id : Int
  name : String
  description : String
  execute_steps : List String
  dbt_version : Option String
  state : Int
  generate_docs : Bool
  run_generate_sources : Bool
  settings : JobSettings
  schedule : JobSchedule
  triggers : JobTriggers
  deferring_job_id : Option Int
  deferring_environment_id : Option Int
  execution : JobExecution
  triggers_on_draft_pr : Bool
  job_completion_trigger : Option JobCompletionTrigger
deriving DecidableEq

/-- The desired-state values that resourceJobUpdate extracts with d.Get;
triggers is the configured triggers map, whose values are Booleans per
the schema element type (missing keys are absent from the list). -/
structure JobConfig where
  project_id : Int
  environment_id : Int
  name : String
  description : String
  dbt_version : String
  num_threads : Int
  target_name : String
  run_generate_sources : Bool
  generate_docs : Bool
  execute_steps : List String
  triggers : List (String × Bool)
  schedule_interval : Int
  schedule_hours : List Int
  schedule_days : List Int
  schedule_cron : String
  schedule_type : String
  deferring_job_id : Int
  deferring_environment_id : Int
  self_deferring : Bool
  timeout_seconds : Int
  triggers_on_draft_pr : Bool
  job_completion_trigger_empty : Bool
  completion_job_id : Int
  completion_project_id : Int
  completion_statuses : List Int

/-- The gating condition of resourceJobUpdate (job.go lines 450-471),
disjunct for disjunct.  The penultimate disjunct tests the attribute name
"triggers_on_drat_pr", transcribed verbatim from line 470 of the source;
the schema attribute (line 167) is spelled "triggers_on_draft_pr". -/
def jobUpdateGate (changed : String → Bool) : Bool :=
  changed "project_id" || changed "environment_id" || changed "name" ||
  changed "description" || changed "dbt_version" || changed "num_threads" ||
  changed "target_name" || changed "execute_steps" || changed "run_generate_sources" ||
  changed "generate_docs" || changed "triggers" || changed "schedule_type" ||
  changed "schedule_interval" || changed "schedule_hours" || changed "schedule_days" ||
  changed "schedule_cron" || changed "deferring_job_id" || changed "deferring_environment_id" ||
  changed "self_deferring" || changed "timeout_seconds" || changed "triggers_on_drat_pr" ||
  changed "job_completion_trigger_condition"

/-- The field assignments of resourceJobUpdate that follow the triggers
branch, in source order (job.go lines 537-641): schedule_interval,
schedule_hours, schedule_days, schedule_cron, then schedule_type (applied
after the sub-fields so that the fields not matching the final type are
nulled out), the deferring fields, timeout_seconds, triggers_on_draft_pr
(the inner branch at line 620, correctly spelled) and the
job-completion trigger. -/
def jobUpdateMergeTail (changed : String → Bool) (cfg : JobConfig) (job0 : Job) : Job :=
  let job := job0
  let job := if changed "schedule_interval" then
      { job with schedule := { job.schedule with time := { job.schedule.time with interval := cfg.schedule_interval } } }
    else job
  let job := if changed "schedule_hours" then
      (if cfg.schedule_hours.length > 0 then
        { job with schedule := { job.schedule with time := { type_ := "at_exact_hours", interval := 0, hours := some cfg.schedule_hours } } }
      else
        { job with schedule := { job.schedule with time := { type_ := "every_hour", interval := cfg.schedule_interval, hours := none } } })
    else job
  let job := if changed "schedule_days" then
      (if cfg.schedule_days.length > 0 then
        { job with schedule := { job.schedule with date := { job.schedule.date with days := some cfg.schedule_days } } }
      else job)
    else job
  let job := if changed "schedule_cron" then
      { job with schedule := { job.schedule with date := { job.schedule.date with cron := some cfg.schedule_cron } } }
    else job
  let job := if changed "schedule_type" then
      (let j := { job with schedule := { job.schedule with date := { job.schedule.date with type_ := cfg.schedule_type } } }
       let j := if cfg.schedule_type = "days_of_week" ∨ cfg.schedule_type = "every_day" then
           { j with schedule := { j.schedule with date := { j.schedule.date with cron := none } } }
         else j
       let j := if cfg.schedule_type = "custom_cron" ∨ cfg.schedule_type = "every_day" then
           { j with schedule := { j.schedule with date := { j.schedule.date with days := none } } }
         else j
       j)
    else job
  let job := if changed "deferring_job_id" then
      (if cfg.deferring_job_id ≠ 0 then { job with deferring_job_id := some cfg.deferring_job_id }
       else { job with deferring_job_id := none })
    else job
  let job := if changed "deferring_environment_id" then
      (if cfg.deferring_environment_id ≠ 0 then { job with deferring_environment_id := some cfg.deferring_environment_id }
       else { job with deferring_environment_id := none })
    else job
  let job := if changed "self_deferring" then
      (if cfg.self_deferring then { job with deferring_job_id := job.id }
       else if cfg.deferring_job_id ≠ 0 then { job with deferring_job_id := some cfg.deferring_job_id }
       else { job with deferring_job_id := none })
    else job
  let job := if changed "timeout_seconds" then
      { job with execution := { job.execution with timeout_seconds := cfg.timeout_seconds } }
    else job
  let job := if changed "triggers_on_draft_pr" then
      { job with triggers_on_draft_pr := cfg.triggers_on_draft_pr }
    else job
  let job := if changed "job_completion_trigger_condition" then
      (if cfg.job_completion_trigger_empty then { job with job_completion_trigger := none }
       else { job with job_completion_trigger := some ⟨⟨cfg.completion_job_id, cfg.completion_project_id, cfg.completion_statuses⟩⟩ })
    else job
  job

/-- The merge of the changed desired-state values onto the fetched job,
job.go lines 477-641 in source order.  The triggers branch (lines 520-535)
looks up the three trigger keys in the new triggers map and aborts with the
source's error message when a key is absent, in which case no update call
is made. -/
def jobUpdateMerge (changed : String → Bool) (cfg : JobConfig) (job0 : Job) : Except String Job :=
  let job := job0
  let job := if changed "project_id" then { job with project_id := cfg.project_id } else job
  let job := if changed "environment_id" then { job with environment_id := cfg.environment_id } else job
  let job := if changed "name" then { job with name := cfg.name } else job
  let job := if changed "description" then { job with description := cfg.description } else job
  let job := if changed "dbt_version" then { job with dbt_version := some cfg.dbt_version } else job
  let job := if changed "num_threads" then { job with settings := { job.settings with threads := cfg.num_threads } } else job
  let job := if changed "target_name" then { job with settings := { job.settings with target_name := cfg.target_name } } else job
  let job := if changed "run_generate_sources" then { job with run_generate_sources := cfg.run_generate_sources } else job
  let job := if changed "generate_docs" then { job with generate_docs := cfg.generate_docs } else job
  let job := if changed "execute_steps" then { job with execute_steps := cfg.execute_steps } else job
  if changed "triggers" then
    match (cfg.triggers).lookup "github_webhook" with
    | none => Except.error "github_webhook was not provided"
    | some gw =>
      match (cfg.triggers).lookup "git_provider_webhook" with
      | none => Except.error "git_provider_webhook was not provided"
      | some gpw =>
        match (cfg.triggers).lookup "schedule" with
        | none => Except.error "schedule was not provided"
        | some sch =>
          Except.ok (jobUpdateMergeTail changed cfg { job with triggers := ⟨gw, gpw, sch⟩ })
  else Except.ok (jobUpdateMergeTail changed cfg job)

/-- Result of a job Update invocation: either no remote update call was
made (the gate was false), a fetch failure or a diagnostics error was
returned before the update call, or exactly one whole-entity update call
was issued with the given payload. -/
inductive JobUpdateResult where
  | noCall
  | fetchError (e : String)
  | errDiag (msg : String)
  | updateCall (payload : Job)
deriving DecidableEq

/-- Embedding of resourceJobUpdate (job.go lines 442-650): when the gate
holds, fetch the current entity, merge the changed fields onto it and send
the merged entity as the single update call; the trailing read-back of
line 649 is not part of the update result. -/
def resourceJobUpdate (changed : String → Bool) (cfg : JobConfig)
    (fetch : Except String Job) : JobUpdateResult :=
  if jobUpdateGate changed then
    match fetch with
    | .error e => .fetchError e
    | .ok job =>
      match jobUpdateMerge changed cfg job with
      | .error msg => .errDiag msg
      | .ok payload => .updateCall payload
  else .noCall

/-- Go strings.HasPrefix on the character-list model. -/
def beginsWith : List Char → List Char → Bool
  | _, [] => true
  | [], _ :: _ => false
  | c :: s, p :: ps => c == p && beginsWith s ps

/-- The not-found test of job.go line 226: the fetch error message has the
prefix "resource-not-found". -/
def isNotFoundErr (e : String) : Bool :=
  beginsWith e.data ("resource-not-found".data)

/-- What a Read invocation does to the state record's identity:
`clearedId` is d.SetId with the empty string and no error, `errorOut` is a
propagated diagnostic, `populated` is a successful state write. -/
inductive ReadOutcome where
  | clearedId
  | errorOut (e : String)
  | populated
deriving DecidableEq

/-- Embedding of the fetch-error handling of resourceJobRead (job.go lines
222-231): a not-found fetch failure clears the identity and raises no
error, any other failure is propagated. -/
def resourceJobReadOutcome (fetch : Except String Job) : ReadOutcome :=
  match fetch with
  | .error e => if isNotFoundErr e then .clearedId else .errorOut e
  | .ok _ => .populated

/-- Modelled from the spec: the deleted-state sentinel dbt_cloud.STATE_DELETED
is defined in the client package, which is not among the provided source
files; its concrete value is immaterial here, the claims only require it to
be the value written by the soft delete (spec section 4.2, Delete). -/
def STATE_DELETED : Int := 2

/-- Result of a job Delete invocation: a fetch failure propagated as a hard
error, or the single whole-entity update call that performs the soft
delete.  The result type has no physical-delete call because
resourceJobDelete never issues one. -/
inductive JobDeleteResult where
  | fetchError (e : String)
  | updateCall (payload : Job)
deriving DecidableEq

/-- Embedding of resourceJobDelete (job.go lines 652-674): fetch the job,
set its state to the deleted sentinel and send it through the same update
call that Update uses. -/
def resourceJobDelete (fetch : Except String Job) : JobDeleteResult :=
  match fetch with
  | .error e => .fetchError e
  | .ok job => .updateCall { job with state := STATE_DELETED }

/-- The triggers map written back to the state by resourceJobRead (job.go
lines 304-318): the remote job's trigger struct is marshalled to a map,
and when the currently configured triggers map carries a Boolean
custom_branch_only entry, that configured value is written into the map,
overriding anything from the remote entity. -/
def jobReadTriggersState (remote : JobTriggers) (listed : List (String × Bool)) :
    List (String × Bool) :=
  let triggers : List (String × Bool) :=
    [("github_webhook", remote.github_webhook),
     ("git_provider_webhook", remote.git_provider_webhook),
     ("schedule", remote.schedule)]
  match listed.lookup "custom_branch_only" with
  | some b => triggers ++ [("custom_branch_only", b)]
  | none => triggers

/-- The three adapter-detail fields that resourceConnectionRead extracts
from connection.Details.AdapterDetails.Fields (connection.go lines
252-256). -/
structure AdapterDetails where
  http_path : String
  catalog : String
  host : String
deriving DecidableEq

/-- The connection detail fields that connection.go reads or writes. -/
structure ConnectionDetails where
  account : String
  database : String
  dbname : String
  warehouse : String
  role : String
  allow_sso : Option Bool
  client_session_keep_alive : Option Bool
  oauth_client_id : String
  oauth_client_secret : String
  host : String
  port : Int
  tunnel_enabled : Option Bool
  adapter_details : Option AdapterDetails
  adapter_id : Option Int
deriving DecidableEq

/-- The remote connection entity: the fields of dbt_cloud.Connection that
connection.go reads or writes. -/
structure Connection where
  id : Option Int
  state : Int
  project_id : Int
  name : String
  type_ : String
  details : ConnectionDetails
deriving DecidableEq

/-- Modelled from the spec: dbt_cloud.STATE_ACTIVE is defined in the client
package, absent from the provided sources; job.go line 251 compares the job
state against the literal 1 for the same is_active translation, so the
active sentinel is 1. -/
def STATE_ACTIVE : Int := 1

/-- The state record written by resourceConnectionRead, one field per
d.Set call (connection.go lines 199-268). -/
structure ConnectionState where
  connection_id : Option Int
  is_active : Bool
  project_id : Int
  name : String
  type_ : String
  account : String
  database : String
  warehouse : String
  role : String
  allow_sso : Option Bool
  allow_keep_alive : Option Bool
  oauth_client_id : String
  oauth_client_secret : String
  port : Int
  tunnel_enabled : Option Bool
  host_name : String
  http_path : String
  catalog : String
  adapter_id : Option Int
deriving DecidableEq

/-- Embedding of the state write of resourceConnectionRead (connection.go
lines 195-268) on a successfully fetched connection: the fetched entity's
OAuth client id and secret are first overwritten with the currently
configured values (lines 195-197, the TODO block), then every state
attribute is set from the resulting entity. -/
def resourceConnectionReadState (remote : Connection)
    (cfgOauthClientId cfgOauthClientSecret : String) : ConnectionState :=
  let conn := { remote with details := { remote.details with
    oauth_client_id := cfgOauthClientId,
    oauth_client_secret := cfgOauthClientSecret } }
  { connection_id := conn.id
  , is_active := conn.state == STATE_ACTIVE
  , project_id := conn.project_id
  , name := conn.name
  , type_ := conn.type_
  , account := conn.details.account
  , database := if conn.type_ = "snowflake" then conn.details.database else conn.details.dbname
  , warehouse := conn.details.warehouse
  , role := conn.details.role
  , allow_sso := conn.details.allow_sso
  , allow_keep_alive := conn.details.client_session_keep_alive
  , oauth_client_id := conn.details.oauth_client_id
  , oauth_client_secret := conn.details.oauth_client_secret
  , port := conn.details.port
  , tunnel_enabled := conn.details.tunnel_enabled
  , host_name := match conn.details.adapter_details with
      | some ad => ad.host
      | none => conn.details.host
  , http_path := match conn.details.adapter_details with
      | some ad => ad.http_path
      | none => ""
  , catalog := match conn.details.adapter_details with
      | some ad => ad.catalog
      | none => ""
  , adapter_id := conn.details.adapter_id }

/-- Embedding of the fetch-error handling of resourceConnectionRead
(connection.go lines 190-193): every fetch failure, the not-found
condition included, is propagated with diag.FromErr; the identity is never
cleared. -/
def resourceConnectionReadOutcome (fetch : Except String Connection) : ReadOutcome :=
  match fetch with
  | .error e => .errorOut e
  | .ok _ => .populated

/-- The desired-state values that resourceConnectionUpdate extracts with
d.Get. -/
structure ConnectionConfig where
  name : String
  type_ : String
  account : String
  database : String
  warehouse : String
  role : String
  allow_sso : Bool
  allow_keep_alive : Bool
  oauth_client_id : String
  oauth_client_secret : String
  host_name : String
  port : Int

/-- The gating condition of resourceConnectionUpdate (connection.go line
281), disjunct for disjunct; host_name and port are applied inside the
branch but are not part of the gate. -/
def connectionUpdateGate (changed : String → Bool) : Bool :=
  changed "name" || changed "type" || changed "account" || changed "database" ||
  changed "warehouse" || changed "role" || changed "allow_sso" ||
  changed "allow_keep_alive" || changed "oauth_client_id" || changed "oauth_client_secret"

/-- The merge of the changed desired-state values onto the fetched
connection, connection.go lines 287-338 in source order. -/
def connectionUpdateMerge (changed : String → Bool) (cfg : ConnectionConfig)
    (conn0 : Connection) : Connection :=
  let conn := conn0
  let conn := if changed "name" then { conn with name := cfg.name } else conn
  let conn := if changed "type" then { conn with type_ := cfg.type_ } else conn
  let conn := if changed "account" then { conn with details := { conn.details with account := cfg.account } } else conn
  let conn := if changed "database" then
      (if conn.type_ = "snowflake" then { conn with details := { conn.details with database := cfg.database } }
       else { conn with details := { conn.details with dbname := cfg.database } })
    else conn
  let conn := if changed "warehouse" then { conn with details := { conn.details with warehouse := cfg.warehouse } } else conn
  let conn := if changed "role" then { conn with details := { conn.details with role := cfg.role } } else conn
  let conn := if changed "allow_sso" then { conn with details := { conn.details with allow_sso := some cfg.allow_sso } } else conn
  let conn := if changed "allow_keep_alive" then { conn with details := { conn.details with client_session_keep_alive := some cfg.allow_keep_alive } } else conn
  let conn := if changed "oauth_client_id" then { conn with details := { conn.details with oauth_client_id := cfg.oauth_client_id } } else conn
  let conn := if changed "oauth_client_secret" then { conn with details := { conn.details with oauth_client_secret := cfg.oauth_client_secret } } else conn
  let conn := if changed "host_name" then { conn with details := { conn.details with host := cfg.host_name } } else conn
  let conn := if changed "port" then { conn with details := { conn.details with port := cfg.port } } else conn
  conn

/-- Result of a connection Update invocation, analogous to
JobUpdateResult. -/
inductive ConnectionUpdateResult where
  | noCall
  | fetchError (e : String)
  | updateCall (payload : Connection)
deriving DecidableEq

/-- Embedding of resourceConnectionUpdate (connection.go lines 273-347):
when the gate holds, fetch the current connection, merge the changed
fields onto it and send it as the single whole-entity update call; the
trailing read-back of line 346 is not part of the update result. -/
def resourceConnectionUpdate (changed : String → Bool) (cfg : ConnectionConfig)
    (fetch : Except String Connection) : ConnectionUpdateResult :=
  if connectionUpdateGate changed then
    match fetch with
    | .error e => .fetchError e
    | .ok conn => .updateCall (connectionUpdateMerge changed cfg conn)
  else .noCall

/-- Result of a connection Delete invocation: the identifier is split and
indexed (lines 354-355, panicking on a delimiter-less identifier), then
DeleteConnection is called with the two halves - a physical delete call,
not an update. -/
inductive ConnectionDeleteResult where
  | indexOutOfRange
  | physicalDelete (projectIdPart connectionIdPart : GoStr)
deriving DecidableEq

/-- Embedding of resourceConnectionDelete (connection.go lines 349-363):
split the composite identifier and issue the generic physical
DeleteConnection call. -/
def resourceConnectionDelete (id : GoStr) : ConnectionDeleteResult :=
  match splitColon id with
  | p :: c :: _ => .physicalDelete p c
  | _ => .indexOutOfRange

/-- A concrete remote job used to instantiate theorems with hypotheses. -/
def sampleJob : Job :=
  { id := some 101
  , project_id := 1
  , environment_id := 2
  , name := "daily run"
  , description := ""
  , execute_steps := ["dbt run"]
  , dbt_version := none
  , state := 1
  , generate_docs := false
  , run_generate_sources := false
  , settings := ⟨4, "default"⟩
  , schedule := ⟨⟨"every_hour", 1, none⟩, ⟨"every_day", none, none⟩⟩
  , triggers := ⟨false, false, true⟩
  , deferring_job_id := none
  , deferring_environment_id := none
  , execution := ⟨0⟩
  , triggers_on_draft_pr := false
  , job_completion_trigger := none }

/-- A concrete desired-state record used to instantiate theorems with
hypotheses; its triggers map is empty. -/
def sampleJobConfig : JobConfig :=
  { project_id := 1
  , environment_id := 2
  , name := "daily run"
  , description := ""
  , dbt_version := "1.6.0-latest"
  , num_threads := 4
  , target_name := "default"
  , run_generate_sources := false
  , generate_docs := false
  , execute_steps := ["dbt run"]
  , triggers := []
  , schedule_interval := 1
  , schedule_hours := []
  , schedule_days := []
  , schedule_cron := ""
  , schedule_type := "every_day"
  , deferring_job_id := 0
  , deferring_environment_id := 0
  , self_deferring := false
  , timeout_seconds := 0
  , triggers_on_draft_pr := false
  , job_completion_trigger_empty := true
  , completion_job_id := 0
  , completion_project_id := 0
  , completion_statuses := [] }

/-- A concrete desired-state record whose triggers map carries the three
trigger keys, used to instantiate theorems with hypotheses. -/
def sampleJobConfigTriggers : JobConfig :=
  { sampleJobConfig with
    triggers := [("github_webhook", true), ("git_provider_webhook", false), ("schedule", true)] }

/-- A concrete remote connection used to instantiate closed theorems. -/
def sampleConnection : Connection :=
  { id := some 7
  , state := 1
  , project_id := 42
  , name := "warehouse conn"
  , type_ := "postgres"
  , details :=
    { account := "acct"
    , database := "db"
    , dbname := "db"
    , warehouse := "wh"
    , role := ""
    , allow_sso := some false
    , client_session_keep_alive := some false
    , oauth_client_id := ""
    , oauth_client_secret := ""
    , host := "db.example.com"
    , port := 5432
    , tunnel_enabled := some false
    , adapter_details := none
    , adapter_id := none } }

/-- A concrete connection desired-state record used to instantiate closed
theorems; its port differs from the sample remote connection's port. -/
def sampleConnectionConfig : ConnectionConfig :=
  { name := "warehouse conn"
  , type_ := "postgres"
  , account := "acct"
  , database := "db"
  , warehouse := "wh"
  , role := ""
  , allow_sso := false
  , allow_keep_alive := false
  , oauth_client_id := ""
  , oauth_client_secret := ""
  , host_name := "db.example.com"
  , port := 5433 }

lemma natToDec_ne_nil (n : Nat) : natToDec n ≠ [] := by
  rw [natToDec]
  split <;> simp

lemma natToDec_digits (n : Nat) : ∀ c ∈ natToDec n, ∃ d, d < 10 ∧ c = digitChar d := by
  induction n using natToDec.induct with
  | case1 n h =>
    intro c hc
    rw [natToDec] at hc
    simp only [h, dite_true, List.mem_singleton] at hc
    exact ⟨n, h, hc⟩
  | case2 n h ih =>
    intro c hc
    rw [natToDec] at hc
    simp only [h, dite_false, List.mem_append, List.mem_singleton] at hc
    rcases hc with hc | hc
    · exact ih c hc
    · exact ⟨n % 10, Nat.mod_lt _ (by omega), hc⟩

lemma digitChar_toNat (d : Nat) (h : d < 10) : (digitChar d).toNat = 48 + d := by
  interval_cases d <;> decide

lemma colon_not_mem_natToDec (n : Nat) : ':' ∉ natToDec n := by
  intro hmem
  obtain ⟨d, hd, he⟩ := natToDec_digits n ':' hmem
  have h1 : (':').toNat = (digitChar d).toNat := congrArg Char.toNat he
  rw [digitChar_toNat d hd] at h1
  have h2 : (':').toNat = 58 := by decide
  omega

lemma splitColon_no_colon : ∀ (s : GoStr), ':' ∉ s → splitColon s = [s]
  | [], _ => rfl
  | c :: rest, h => by
    simp only [List.mem_cons, not_or] at h
    obtain ⟨h1, h2⟩ := h
    have hc : ¬ (c = ':') := fun hh => h1 hh.symm
    simp only [splitColon, hc, if_false]
    rw [splitColon_no_colon rest h2]

lemma splitColon_append : ∀ (a b : GoStr), ':' ∉ a → splitColon (a ++ ':' :: b) = a :: splitColon b
  | [], b, _ => by simp [splitColon]
  | c :: a, b, h => by
    simp only [List.mem_cons, not_or] at h
    obtain ⟨h1, h2⟩ := h
    have hc : ¬ (c = ':') := fun hh => h1 hh.symm
    simp only [List.cons_append, splitColon, hc, if_false]
    rw [List.append_eq, splitColon_append a b h2]

lemma splitColon_encode (p e : Nat) :
    splitColon (encodeCompositeId p e) = [natToDec p, natToDec e] := by
  have h1 : encodeCompositeId p e = natToDec p ++ ':' :: natToDec e := by
    simp [encodeCompositeId, ID_DELIMITER]
  rw [h1, splitColon_append _ _ (colon_not_mem_natToDec p),
    splitColon_no_colon _ (colon_not_mem_natToDec e)]

lemma decDigit?_digitChar (d : Nat) (h : d < 10) : decDigit? (digitChar d) = some d := by
  interval_cases d <;> decide

lemma parseDecAux_append (acc : Nat) (a b : GoStr) :
    parseDecAux acc (a ++ b) =
      match parseDecAux acc a with
      | some v => parseDecAux v b
      | none => none := by
  induction a generalizing acc with
  | nil => rfl
  | cons c a ih =>
    simp only [List.cons_append, parseDecAux]
    cases decDigit? c with
    | none => rfl
    | some d => exact ih (10 * acc + d)

lemma parseDecAux_natToDec (n : Nat) :
    ∀ acc, parseDecAux acc (natToDec n) = some (acc * 10 ^ (natToDec n).length + n) := by
  induction n using natToDec.induct with
  | case1 n h =>
    intro acc
    rw [natToDec]
    simp only [h, dite_true, parseDecAux, decDigit?_digitChar n h, List.length_singleton]
    congr 1
    simp [pow_one]
    omega
  | case2 n h ih =>
    intro acc
    rw [natToDec]
    simp only [h, dite_false]
    rw [parseDecAux_append, ih acc]
    simp only [parseDecAux, decDigit?_digitChar (n % 10) (Nat.mod_lt _ (by omega)),
      List.length_append, List.length_singleton]
    congr 1
    rw [pow_succ, ← Nat.mul_assoc]
    have hdm := Nat.div_add_mod n 10
    generalize acc * 10 ^ (natToDec (n / 10)).length = X
    omega

lemma parseDec_natToDec (n : Nat) : parseDec (natToDec n) = some n := by
  have h1 : parseDec (natToDec n) = parseDecAux 0 (natToDec n) := by
    cases hs : natToDec n with
    | nil => exact absurd hs (natToDec_ne_nil n)
    | cons c rest => rfl
  rw [h1, parseDecAux_natToDec n 0]
  simp

/-- Claim C2: for all valid integer pairs, decoding the composite
identifier produced by encoding them (the two integers concatenated with
the fixed delimiter) yields back exactly the pair: the composite
identifier round-trips losslessly through encode then decode. -/
theorem decode_encode_roundtrip (p e : Nat) :
    decodeCompositeId (encodeCompositeId p e) = CompositeDecode.ok p e := by
  unfold decodeCompositeId
  rw [splitColon_encode]
  simp [parseDec_natToDec]

/-- Claim C1 counterexample: a connection Update in which port is the only
changed attribute issues no remote call at all (the gate at connection.go
line 281 omits port), and a job Update in which triggers_on_draft_pr is
the only changed attribute issues no remote call either (the gate at
job.go line 470 tests a misspelled name), contradicting the claim that
every singly-changed Update issues exactly one whole-entity update call
carrying the new value. -/
theorem update_single_changed_field_cex :
    resourceConnectionUpdate (fun a => a == "port") sampleConnectionConfig
        (Except.ok sampleConnection) = ConnectionUpdateResult.noCall ∧
    resourceJobUpdate (fun a => a == "triggers_on_draft_pr") sampleJobConfig
        (Except.ok sampleJob) = JobUpdateResult.noCall :=
  ⟨rfl, rfl⟩

/-- Claim C1 amended: for an Update invocation in which exactly one
attribute is reported changed, the behaviour depends on the resource's
update gate.  If the attribute is enumerated in the gate, Update fetches
the current remote entity and issues exactly one whole-entity update call
whose payload equals the fetched entity except for the changed
attribute's own field(s), which carry the new desired value - for the
grouped attributes (triggers, schedule_hours, schedule_type,
self_deferring) the source's grouped rule is applied, and for the
conditional ones (schedule_days, deferring ids, the completion trigger,
the connection database) the source's conditional rule.  If the attribute
is not enumerated in the gate - is_active and, through the line 470
misspelling, triggers_on_draft_pr for jobs; is_active, project_id,
host_name, port, tunnel_enabled, http_path and catalog for connections -
Update issues no remote call at all, leaving the remote entity
unchanged. -/
theorem update_single_attribute_gate_frame
    (cfg : JobConfig) (remote : Job) (ccfg : ConnectionConfig) (cremote : Connection) :
    (∀ gw gpw sch,
      (cfg.triggers).lookup "github_webhook" = some gw →
      (cfg.triggers).lookup "git_provider_webhook" = some gpw →
      (cfg.triggers).lookup "schedule" = some sch →
      resourceJobUpdate (fun a => a == "triggers") cfg (Except.ok remote)
        = JobUpdateResult.updateCall { remote with triggers := ⟨gw, gpw, sch⟩ }) ∧
    resourceJobUpdate (fun a => a == "project_id") cfg (Except.ok remote)
        = JobUpdateResult.updateCall { remote with project_id := cfg.project_id } ∧
    resourceJobUpdate (fun a => a == "environment_id") cfg (Except.ok remote)
        = JobUpdateResult.updateCall { remote with environment_id := cfg.environment_id } ∧
    resourceJobUpdate (fun a => a == "name") cfg (Except.ok remote)
        = JobUpdateResult.updateCall { remote with name := cfg.name } ∧
    resourceJobUpdate (fun a => a == "description") cfg (Except.ok remote)
        = JobUpdateResult.updateCall { remote with description := cfg.description } ∧
    resourceJobUpdate (fun a => a == "dbt_version") cfg (Except.ok remote)
        = JobUpdateResult.updateCall { remote with dbt_version := some cfg.dbt_version } ∧
    resourceJobUpdate (fun a => a == "num_threads") cfg (Except.ok remote)
        = JobUpdateResult.updateCall
            { remote with settings := { remote.settings with threads := cfg.num_threads } } ∧
    resourceJobUpdate (fun a => a == "target_name") cfg (Except.ok remote)
        = JobUpdateResult.updateCall
            { remote with settings := { remote.settings with target_name := cfg.target_name } } ∧
    resourceJobUpdate (fun a => a == "execute_steps") cfg (Except.ok remote)
        = JobUpdateResult.updateCall { remote with execute_steps := cfg.execute_steps } ∧
    resourceJobUpdate (fun a => a == "run_generate_sources") cfg (Except.ok remote)
        = JobUpdateResult.updateCall { remote with run_generate_sources := cfg.run_generate_sources } ∧
    resourceJobUpdate (fun a => a == "generate_docs") cfg (Except.ok remote)
        = JobUpdateResult.updateCall { remote with generate_docs := cfg.generate_docs } ∧
    resourceJobUpdate (fun a => a == "schedule_interval") cfg (Except.ok remote)
        = JobUpdateResult.updateCall
            { remote with schedule := { remote.schedule with
                time := { remote.schedule.time with interval := cfg.schedule_interval } } } ∧
    resourceJobUpdate (fun a => a == "schedule_cron") cfg (Except.ok remote)
        = JobUpdateResult.updateCall
            { remote with schedule := { remote.schedule with
                date := { remote.schedule.date with cron := some cfg.schedule_cron } } } ∧
    resourceJobUpdate (fun a => a == "schedule_hours") cfg (Except.ok remote)
        = JobUpdateResult.updateCall
            (if cfg.schedule_hours.length > 0 then
              { remote with schedule := { remote.schedule with
                  time := { type_ := "at_exact_hours", interval := 0, hours := some cfg.schedule_hours } } }
            else
              { remote with schedule := { remote.schedule with
                  time := { type_ := "every_hour", interval := cfg.schedule_interval, hours := none } } }) ∧
    resourceJobUpdate (fun a => a == "schedule_days") cfg (Except.ok remote)
        = JobUpdateResult.updateCall
            (if cfg.schedule_days.length > 0 then
              { remote with schedule := { remote.schedule with
                  date := { remote.schedule.date with days := some cfg.schedule_days } } }
            else remote) ∧
    resourceJobUpdate (fun a => a == "schedule_type") cfg (Except.ok remote)
        = JobUpdateResult.updateCall
            (let j := { remote with schedule := { remote.schedule with
                date := { remote.schedule.date with type_ := cfg.schedule_type } } }
             let j := if cfg.schedule_type = "days_of_week" ∨ cfg.schedule_type = "every_day" then
                 { j with schedule := { j.schedule with date := { j.schedule.date with cron := none } } }
               else j
             let j := if cfg.schedule_type = "custom_cron" ∨ cfg.schedule_type = "every_day" then
                 { j with schedule := { j.schedule with date := { j.schedule.date with days := none } } }
               else j
             j) ∧
    resourceJobUpdate (fun a => a == "deferring_job_id") cfg (Except.ok remote)
        = JobUpdateResult.updateCall
            (if cfg.deferring_job_id ≠ 0 then { remote with deferring_job_id := some cfg.deferring_job_id }
             else { remote with deferring_job_id := none }) ∧
    resourceJobUpdate (fun a => a == "deferring_environment_id") cfg (Except.ok remote)
        = JobUpdateResult.updateCall
            (if cfg.deferring_environment_id ≠ 0 then
              { remote with deferring_environment_id := some cfg.deferring_environment_id }
             else { remote with deferring_environment_id := none }) ∧
    resourceJobUpdate (fun a => a == "self_deferring") cfg (Except.ok remote)
        = JobUpdateResult.updateCall
            (if cfg.self_deferring then { remote with deferring_job_id := remote.id }
             else if cfg.deferring_job_id ≠ 0 then { remote with deferring_job_id := some cfg.deferring_job_id }
             else { remote with deferring_job_id := none }) ∧
    resourceJobUpdate (fun a => a == "timeout_seconds") cfg (Except.ok remote)
        = JobUpdateResult.updateCall
            { remote with execution := { remote.execution with timeout_seconds := cfg.timeout_seconds } } ∧
    resourceJobUpdate (fun a => a == "job_completion_trigger_condition") cfg (Except.ok remote)
        = JobUpdateResult.updateCall
            (if cfg.job_completion_trigger_empty then { remote with job_completion_trigger := none }
             else { remote with job_completion_trigger := some ⟨⟨cfg.completion_job_id, cfg.completion_project_id, cfg.completion_statuses⟩⟩ }) ∧
    resourceJobUpdate (fun a => a == "is_active") cfg (Except.ok remote)
        = JobUpdateResult.noCall ∧
    resourceJobUpdate (fun a => a == "triggers_on_draft_pr") cfg (Except.ok remote)
        = JobUpdateResult.noCall ∧
    resourceConnectionUpdate (fun a => a == "name") ccfg (Except.ok cremote)
        = ConnectionUpdateResult.updateCall { cremote with name := ccfg.name } ∧
    resourceConnectionUpdate (fun a => a == "type") ccfg (Except.ok cremote)
        = ConnectionUpdateResult.updateCall { cremote with type_ := ccfg.type_ } ∧
    resourceConnectionUpdate (fun a => a == "account") ccfg (Except.ok cremote)
        = ConnectionUpdateResult.updateCall
            { cremote with details := { cremote.details with account := ccfg.account } } ∧
    resourceConnectionUpdate (fun a => a == "database") ccfg (Except.ok cremote)
        = ConnectionUpdateResult.updateCall
            (if cremote.type_ = "snowflake" then
              { cremote with details := { cremote.details with database := ccfg.database } }
             else
              { cremote with details := { cremote.details with dbname := ccfg.database } }) ∧
    resourceConnectionUpdate (fun a => a == "warehouse") ccfg (Except.ok cremote)
        = ConnectionUpdateResult.updateCall
            { cremote with details := { cremote.details with warehouse := ccfg.warehouse } } ∧
    resourceConnectionUpdate (fun a => a == "role") ccfg (Except.ok cremote)
        = ConnectionUpdateResult.updateCall
            { cremote with details := { cremote.details with role := ccfg.role } } ∧
    resourceConnectionUpdate (fun a => a == "allow_sso") ccfg (Except.ok cremote)
        = ConnectionUpdateResult.updateCall
            { cremote with details := { cremote.details with allow_sso := some ccfg.allow_sso } } ∧
    resourceConnectionUpdate (fun a => a == "allow_keep_alive") ccfg (Except.ok cremote)
        = ConnectionUpdateResult.updateCall
            { cremote with details := { cremote.details with
                client_session_keep_alive := some ccfg.allow_keep_alive } } ∧
    resourceConnectionUpdate (fun a => a == "oauth_client_id") ccfg (Except.ok cremote)
        = ConnectionUpdateResult.updateCall
            { cremote with details := { cremote.details with oauth_client_id := ccfg.oauth_client_id } } ∧
    resourceConnectionUpdate (fun a => a == "oauth_client_secret") ccfg (Except.ok cremote)
        = ConnectionUpdateResult.updateCall
            { cremote with details := { cremote.details with oauth_client_secret := ccfg.oauth_client_secret } } ∧
    resourceConnectionUpdate (fun a => a == "is_active") ccfg (Except.ok cremote)
        = ConnectionUpdateResult.noCall ∧
    resourceConnectionUpdate (fun a => a == "project_id") ccfg (Except.ok cremote)
        = ConnectionUpdateResult.noCall ∧
    resourceConnectionUpdate (fun a => a == "host_name") ccfg (Except.ok cremote)
        = ConnectionUpdateResult.noCall ∧
    resourceConnectionUpdate (fun a => a == "port") ccfg (Except.ok cremote)
        = ConnectionUpdateResult.noCall ∧
    resourceConnectionUpdate (fun a => a == "tunnel_enabled") ccfg (Except.ok cremote)
        = ConnectionUpdateResult.noCall ∧
    resourceConnectionUpdate (fun a => a == "http_path") ccfg (Except.ok cremote)
        = ConnectionUpdateResult.noCall ∧
    resourceConnectionUpdate (fun a => a == "catalog") ccfg (Except.ok cremote)
        = ConnectionUpdateResult.noCall := by
  refine ⟨?_, rfl, rfl, rfl, rfl, rfl, rfl, rfl, rfl, rfl, rfl, rfl, rfl, rfl, rfl, rfl,
    rfl, rfl, rfl, rfl, rfl, rfl, rfl, rfl, rfl, rfl, rfl, rfl, rfl, rfl, rfl, rfl, rfl,
    rfl, rfl, rfl, rfl, rfl, rfl, rfl⟩
  intro gw gpw sch h1 h2 h3
  unfold resourceJobUpdate jobUpdateMerge
  simp only [h1, h2, h3]
  rfl

/-- Witness for the amended C1 theorem: with a configured triggers map
carrying the three keys, a triggers-only job Update issues the single
update call with the three flags applied. -/
theorem update_single_attribute_gate_frame_witness :
    resourceJobUpdate (fun a => a == "triggers") sampleJobConfigTriggers (Except.ok sampleJob)
      = JobUpdateResult.updateCall { sampleJob with triggers := ⟨true, false, true⟩ } :=
  (update_single_attribute_gate_frame sampleJobConfigTriggers sampleJob
    sampleConnectionConfig sampleConnection).1 true false true rfl rfl rfl

/-- Claim C3 counterexample: a connection Read whose fetch fails with the
not-found condition propagates the failure as a hard error and does not
clear the record's identity, contradicting the claim that every Read
clears the identity and returns no error on not-found. -/
theorem connectionRead_notFound_hard_error_cex :
    isNotFoundErr "resource-not-found: gone" = true ∧
    resourceConnectionReadOutcome (Except.error "resource-not-found: gone")
        = ReadOutcome.errorOut "resource-not-found: gone" ∧
    resourceConnectionReadOutcome (Except.error "resource-not-found: gone")
        ≠ ReadOutcome.clearedId :=
  ⟨by decide, rfl, by decide⟩

/-- Claim C3 amended: a job Read whose fetch fails with the not-found
condition clears the record's identity and returns no error, while a
connection Read propagates every fetch failure, the not-found condition
included, as a hard error; during job Update (whenever the gate reports a
change) and job Delete, a fetch failure is a hard error propagated to the
hosting runtime. -/
theorem notFound_error_policy (e : String) (h : isNotFoundErr e = true) :
    resourceJobReadOutcome (Except.error e) = ReadOutcome.clearedId ∧
    resourceConnectionReadOutcome (Except.error e) = ReadOutcome.errorOut e ∧
    (∀ (changed : String → Bool) (cfg : JobConfig), jobUpdateGate changed = true →
      resourceJobUpdate changed cfg (Except.error e) = JobUpdateResult.fetchError e) ∧
    resourceJobDelete (Except.error e) = JobDeleteResult.fetchError e := by
  refine ⟨?_, rfl, ?_, rfl⟩
  · simp [resourceJobReadOutcome, h]
  · intro changed cfg hg
    simp [resourceJobUpdate, hg]

/-- Witness for the amended C3 theorem at a concrete not-found error. -/
theorem notFound_error_policy_witness :
    isNotFoundErr "resource-not-found: job 101" = true ∧
    jobUpdateGate (fun a => a == "name") = true ∧
    resourceJobReadOutcome (Except.error "resource-not-found: job 101") = ReadOutcome.clearedId ∧
    resourceJobUpdate (fun a => a == "name") sampleJobConfig
        (Except.error "resource-not-found: job 101")
      = JobUpdateResult.fetchError "resource-not-found: job 101" :=
  ⟨by decide, by decide,
   (notFound_error_policy "resource-not-found: job 101" (by decide)).1,
   (notFound_error_policy "resource-not-found: job 101" (by decide)).2.2.1
     (fun a => a == "name") sampleJobConfig (by decide)⟩

/-- Claim C4 counterexample: the connection Delete handler issues the
generic physical DeleteConnection call with the two identifier halves,
not a whole-entity update carrying a deleted sentinel, contradicting the
claim that the connection resource is soft-deleted. -/
theorem connectionDelete_physical_cex :
    resourceConnectionDelete ("42:7".data)
      = ConnectionDeleteResult.physicalDelete ("42".data) ("7".data) := by decide

/-- Claim C4 amended: a job Delete fetches the entity and issues the same
whole-entity update call used by Update with the state field set to the
deleted sentinel, never a physical delete; a connection Delete (the
generic connection delete, shared by the bigquery connection) issues a
physical delete call with the two halves of the composite identifier. -/
theorem delete_call_shape (job : Job) (p e : Nat) :
    resourceJobDelete (Except.ok job)
        = JobDeleteResult.updateCall { job with state := STATE_DELETED } ∧
    resourceConnectionDelete (encodeCompositeId p e)
        = ConnectionDeleteResult.physicalDelete (natToDec p) (natToDec e) := by
  refine ⟨rfl, ?_⟩
  unfold resourceConnectionDelete
  rw [splitColon_encode]

/-- Claim C5: updating a job whose reported changes are schedule_type
(to custom_cron) and schedule_cron (to the cron expression), the
schedule_type assignment is applied after the sub-field assignments, so
the single update payload carries the cron expression and a cleared
(nil) days field, whatever the fetched entity held. -/
theorem jobUpdate_schedule_type_applied_last (cfg : JobConfig) (remote : Job) :
    resourceJobUpdate (fun a => a == "schedule_type" || a == "schedule_cron")
        { cfg with schedule_type := "custom_cron", schedule_cron := "0 * * * *" }
        (Except.ok remote)
      = JobUpdateResult.updateCall
          { remote with schedule :=
              { remote.schedule with
                date := { type_ := "custom_cron", days := none, cron := some "0 * * * *" } } } :=
  rfl

/-- Claim C6 counterexample: decoding an identifier that lacks the
delimiter raises the index-out-of-range panic of indexing the second
element of a one-element split, rather than failing with a
MalformedIdentifier error. -/
theorem decode_missing_delimiter_cex :
    decodeCompositeId ("abc".data) = CompositeDecode.indexOutOfRange ∧
    decodeCompositeId ("abc".data) ≠ CompositeDecode.malformed := by decide

/-- Claim C6 amended: for an input lacking the delimiter, decoding
panics with an index-out-of-range rather than returning a
MalformedIdentifier error; for an input containing the delimiter whose
half before or after it is not a valid integer, decoding fails with the
MalformedIdentifier error. -/
theorem decode_failure_modes (s : GoStr) :
    (':' ∉ s → decodeCompositeId s = CompositeDecode.indexOutOfRange) ∧
    (∀ p e rest, splitColon s = p :: e :: rest →
      (parseDec p = none ∨ parseDec e = none) →
      decodeCompositeId s = CompositeDecode.malformed) := by
  constructor
  · intro h
    unfold decodeCompositeId
    rw [splitColon_no_colon s h]
  · intro p e rest hsplit hbad
    unfold decodeCompositeId
    rw [hsplit]
    rcases hbad with hb | hb
    · simp [hb]
    · cases hp : parseDec p <;> simp [hb, hp]

/-- Witness for the amended C6 theorem at concrete malformed inputs. -/
theorem decode_failure_modes_witness :
    decodeCompositeId ("abc".data) = CompositeDecode.indexOutOfRange ∧
    decodeCompositeId ("1:x".data) = CompositeDecode.malformed :=
  ⟨(decode_failure_modes ("abc".data)).1 (by decide),
   (decode_failure_modes ("1:x".data)).2 ("1".data) ("x".data) [] (by decide)
     (Or.inr (by decide))⟩

/-- Claim C7 (evidence of the code bug): when the hosting runtime reports
triggers_on_draft_pr as the only changed attribute, resourceJobUpdate
performs no fetch and issues no update call at all, because the gating
condition tests the misspelled attribute name "triggers_on_drat_pr"
(job.go line 470) while the schema attribute and the inner assignment
(lines 167 and 620) use "triggers_on_draft_pr". -/
theorem jobUpdate_draft_pr_only_no_call (cfg : JobConfig) (remote : Job) :
    resourceJobUpdate (fun a => a == "triggers_on_draft_pr") cfg (Except.ok remote)
      = JobUpdateResult.noCall :=
  rfl

/-- Claim C8: when the configured triggers map carries a Boolean
custom_branch_only entry, the triggers map written back to the state by
job Read carries that configured value unchanged, whatever the remote
entity's triggers contain. -/
theorem jobRead_custom_branch_only_echo (rt : JobTriggers)
    (listed : List (String × Bool)) (b : Bool)
    (h : listed.lookup "custom_branch_only" = some b) :
    (jobReadTriggersState rt listed).lookup "custom_branch_only" = some b := by
  unfold jobReadTriggersState
  rw [h]
  rfl

/-- Witness for the C8 theorem at a concrete configured triggers map and
a remote trigger struct whose flags all differ from the configured
custom_branch_only value. -/
theorem jobRead_custom_branch_only_echo_witness :
    (jobReadTriggersState ⟨true, true, true⟩ [("custom_branch_only", false)]).lookup
        "custom_branch_only" = some false :=
  jobRead_custom_branch_only_echo ⟨true, true, true⟩ [("custom_branch_only", false)]
    false (by decide)

/-- Claim C9: a successful connection Read leaves the oauth_client_id and
oauth_client_secret state attributes at their previously configured local
values, discarding whatever the remote entity returned for them, while
every other attribute is populated from the remote entity (with the
source's format translations for is_active, database, host_name,
http_path and catalog). -/
theorem connectionRead_preserves_oauth_config (remote : Connection) (cid csec : String) :
    (resourceConnectionReadState remote cid csec).oauth_client_id = cid ∧
    (resourceConnectionReadState remote cid csec).oauth_client_secret = csec ∧
    (resourceConnectionReadState remote cid csec).connection_id = remote.id ∧
    (resourceConnectionReadState remote cid csec).is_active = (remote.state == STATE_ACTIVE) ∧
    (resourceConnectionReadState remote cid csec).project_id = remote.project_id ∧
    (resourceConnectionReadState remote cid csec).name = remote.name ∧
    (resourceConnectionReadState remote cid csec).type_ = remote.type_ ∧
    (resourceConnectionReadState remote cid csec).account = remote.details.account ∧
    (resourceConnectionReadState remote cid csec).database
        = (if remote.type_ = "snowflake" then remote.details.database else remote.details.dbname) ∧
    (resourceConnectionReadState remote cid csec).warehouse = remote.details.warehouse ∧
    (resourceConnectionReadState remote cid csec).role = remote.details.role ∧
    (resourceConnectionReadState remote cid csec).allow_sso = remote.details.allow_sso ∧
    (resourceConnectionReadState remote cid csec).allow_keep_alive
        = remote.details.client_session_keep_alive ∧
    (resourceConnectionReadState remote cid csec).port = remote.details.port ∧
    (resourceConnectionReadState remote cid csec).tunnel_enabled = remote.details.tunnel_enabled ∧
    (resourceConnectionReadState remote cid csec).host_name
        = (match remote.details.adapter_details with
           | some ad => ad.host
           | none => remote.details.host) ∧
    (resourceConnectionReadState remote cid csec).http_path
        = (match remote.details.adapter_details with
           | some ad => ad.http_path
           | none => "") ∧
    (resourceConnectionReadState remote cid csec).catalog
        = (match remote.details.adapter_details with
           | some ad => ad.catalog
           | none => "") ∧
    (resourceConnectionReadState remote cid csec).adapter_id = remote.details.adapter_id :=
  ⟨rfl, rfl, rfl, rfl, rfl, rfl, rfl, rfl, rfl, rfl, rfl, rfl, rfl, rfl, rfl, rfl, rfl, rfl, rfl⟩

/-- Claim C10: when the triggers attribute is reported changed and one of
the keys github_webhook, git_provider_webhook or schedule is absent from
the new triggers map, job Update returns the error naming the missing key
and issues no remote update call. -/
theorem jobUpdate_missing_trigger_key (changed : String → Bool) (cfg : JobConfig)
    (remote : Job) (h : changed "triggers" = true) :
    ((cfg.triggers).lookup "github_webhook" = none →
      resourceJobUpdate changed cfg (Except.ok remote)
        = JobUpdateResult.errDiag "github_webhook was not provided") ∧
    (∀ gw, (cfg.triggers).lookup "github_webhook" = some gw →
      (cfg.triggers).lookup "git_provider_webhook" = none →
      resourceJobUpdate changed cfg (Except.ok remote)
        = JobUpdateResult.errDiag "git_provider_webhook was not provided") ∧
    (∀ gw gpw, (cfg.triggers).lookup "github_webhook" = some gw →
      (cfg.triggers).lookup "git_provider_webhook" = some gpw →
      (cfg.triggers).lookup "schedule" = none →
      resourceJobUpdate changed cfg (Except.ok remote)
        = JobUpdateResult.errDiag "schedule was not provided") := by
  have hg : jobUpdateGate changed = true := by
    simp [jobUpdateGate, h]
  refine ⟨?_, ?_, ?_⟩
  · intro h1
    simp [resourceJobUpdate, hg, jobUpdateMerge, h, h1]
  · intro gw h1 h2
    simp [resourceJobUpdate, hg, jobUpdateMerge, h, h1, h2]
  · intro gw gpw h1 h2 h3
    simp [resourceJobUpdate, hg, jobUpdateMerge, h, h1, h2, h3]

/-- Witness for the C10 theorem: with an empty configured triggers map the
update aborts naming github_webhook and issues no update call. -/
theorem jobUpdate_missing_trigger_key_witness :
    resourceJobUpdate (fun a => a == "triggers") sampleJobConfig (Except.ok sampleJob)
      = JobUpdateResult.errDiag "github_webhook was not provided" :=
  (jobUpdate_missing_trigger_key (fun a => a == "triggers") sampleJobConfig sampleJob
    (by decide)).1 (by decide)

end DbtCloud
